import Mathlib

/-!
Shallow embedding of the media-utility desktop application, covering the parts of
`src/yt_tab.py` (the download worker `YTDLWorker`, its progress hook, the polling
consumer `YouTubeTab._process_queue`, and `YouTubeTab.start_download`) and of
`src/converter_tab.py` (`ImageConverterTab.swap_formats` and the batch conversion
loop of `ImageConverterTab.convert`) that the verified properties are about.

Python strings are modelled as Lean `String`; the string operations the source
uses (`str.lower`, `str.endswith`, `str.strip`, `str.replace`, `in`,
`os.path.splitext`) are defined below over the character list of the string with
structural recursion, so that every definition evaluates inside the kernel.
Nonnegative integers from Python (byte counts, sizes, counts) are modelled as `ℕ`;
values from `dict.get` that may be `None` are modelled as `Option`.  Python's true
division followed by `int(...)` truncation (the percent computation) is modelled
with exact rational arithmetic; the source's `float` rounding agrees with the
exact value on every realistic byte count.
-/

/-! ## Python primitive semantics -/

/-- Python `x or y` where `x` is an optional nonnegative integer: both `None` and
`0` are falsey, so they fall through to `y`.  Models the `or`-chains in
`_progress_hook` (src/yt_tab.py lines 77-78). -/
def pyOrNat (x : Option ℕ) (y : ℕ) : ℕ :=
  match x with
  | none => y
  | some n => if n = 0 then y else n

/-- Python `x or y` for strings: the empty string is falsey.  Models
`fmt.get("id") or "bestvideo+bestaudio/best"` and
`self.filename_input.text().strip() or "{title}.{ext}"` (src/yt_tab.py 441, 447). -/
def pyOrStr (x y : String) : String :=
  if x = "" then y else x

/-- Python `str(x)` for an optional nonnegative integer: `str(None)` is `"None"`.
Used for the `ETA: {eta}s` part of the progress label (src/yt_tab.py 484). -/
def pyStrOfOptNat (x : Option ℕ) : String :=
  match x with
  | none => "None"
  | some n => toString n

/-- ASCII lowercasing of one character, as `str.lower` acts on the ASCII range
(every string the source lowercases is ASCII). -/
def pyLowerChar (c : Char) : Char := c.toLower

/-- Python `s.lower()`. -/
def pyLower (s : String) : String := String.mk (s.data.map pyLowerChar)

/-- Python `s.endswith(suffix)`. -/
def pyEndsWith (s suffix : String) : Bool := suffix.data.isSuffixOf s.data

/-- Python `prefix + rest == s` test, that is `s.startswith(p)`. -/
def pyStartsWith (s p : String) : Bool := p.data.isPrefixOf s.data

/-- Whether `sub` occurs as a contiguous run inside `l` (helper for Python `in`). -/
def listContainsRun (sub : List Char) : List Char → Bool
  | [] => sub.isEmpty
  | c :: rest => sub.isPrefixOf (c :: rest) || listContainsRun sub rest

/-- Python `sub in s` for strings. -/
def pyInStr (sub s : String) : Bool := listContainsRun sub.data s.data

/-- Python `s.strip()`: remove leading and trailing whitespace. -/
def pyStrip (s : String) : String :=
  String.mk (((s.data.dropWhile Char.isWhitespace).reverse.dropWhile
    Char.isWhitespace).reverse)

/-- Worker loop for `pyReplace`: scan the text left to right; at each position not
inside an already-replaced occurrence (`skip = 0`), emit the replacement and skip
the matched occurrence when the pattern starts here, else keep the character. -/
def replaceGo (pat repl : List Char) : List Char → ℕ → List Char
  | [], _ => []
  | _ :: rest, Nat.succ k => replaceGo pat repl rest k
  | c :: rest, 0 =>
    if pat.isPrefixOf (c :: rest) then
      repl ++ replaceGo pat repl rest (pat.length - 1)
    else
      c :: replaceGo pat repl rest 0

/-- Python `s.replace(pat, repl)` for a nonempty pattern (replace every
non-overlapping occurrence, left to right; the source only replaces the nonempty
patterns `"{title}"` and `"{ext}"`, so the empty-pattern corner of `str.replace`
is mapped to the identity). -/
def pyReplace (s pat repl : String) : String :=
  if pat = "" then s else String.mk (replaceGo pat.data repl.data s.data 0)

/-- Percent computation of `YTDLWorker._progress_hook` (src/yt_tab.py line 81):
`int(downloaded * 100 / total) if total else 0`.  Python's true division of the
exact integers followed by `int` truncation is modelled as the floor of the exact
rational quotient (the operands are nonnegative, so truncation and floor agree). -/
def pyPercent (downloaded total : ℕ) : ℤ :=
  if total = 0 then 0 else ⌊(downloaded * 100 : ℚ) / (total : ℚ)⌋

/-- Bridge: the hook's percent is the truncating natural division
`downloaded * 100 / total` (and `0` when `total = 0`, since Lean's natural
division by zero is zero as well). -/
theorem pyPercent_eq_div (d t : ℕ) : pyPercent d t = ((d * 100 / t : ℕ) : ℤ) := by
  unfold pyPercent
  rcases Nat.eq_zero_or_pos t with ht | ht
  · simp [ht]
  · rw [if_neg (Nat.pos_iff_ne_zero.mp ht)]
    have ht' : (0 : ℚ) < (t : ℚ) := by exact_mod_cast ht
    rw [Int.floor_eq_iff]
    constructor
    · rw [le_div_iff₀ ht']
      have h1 : d * 100 / t * t ≤ d * 100 := Nat.div_mul_le_self (d * 100) t
      exact_mod_cast h1
    · rw [div_lt_iff₀ ht']
      have h2 : d * 100 < (d * 100 / t + 1) * t :=
        (Nat.div_lt_iff_lt_mul ht).mp (Nat.lt_succ_self _)
      exact_mod_cast h2

/-! ## Data model: formats, info payload, queue messages -/

/-- One entry of the format dicts built in `check_formats` (src/yt_tab.py 271-321),
restricted to the fields later code reads (`id` for `start_download`, `label` for
the combo boxes, `ext`/`vcodec`/`acodec` for the classification in
`_on_formats_ready`, plus the stored `filesize`/`height`). -/
structure Fmt where
  id : String
  label : String
  ext : String
  vcodec : String
  acodec : String
  filesize : ℕ
  height : Option ℕ
  deriving Repr, DecidableEq, Inhabited

/-- The fields of the provider's info dict that the tab reads
(`info.get("title", ...)`, `info.get("uploader", "")`). -/
structure InfoPayload where
  title : Option String
  uploader : Option String
  deriving Repr, DecidableEq

/-- Payload of a `("formats_ready", data)` queue message (src/yt_tab.py 335-336). -/
structure FormatsPayload where
  formats : List Fmt
  info : Option InfoPayload
  thumbnail : Option (List ℕ)
  deriving Repr, DecidableEq

/-- Payload dict of a `("progress", msg)` queue message, built in
`_progress_hook` (src/yt_tab.py 82-88). -/
structure ProgressMsg where
  percent : ℤ
  downloaded : ℕ
  total : ℕ
  speed : Option ℕ
  eta : Option ℕ
  deriving Repr, DecidableEq

/-- Tagged messages `(typ, data)` put on `self.progress_queue`: the worker emits
`status`/`progress`/`done`/`error`; the format-check thread additionally emits
`formatsReady`/`checkDone` (src/yt_tab.py 64-93, 335-340). -/
inductive Ev where
  | status (msg : String)
  | progress (m : ProgressMsg)
  | done (msg : String)
  | error (msg : String)
  | formatsReady (p : FormatsPayload)
  | checkDone
  deriving Repr, DecidableEq

/-- Terminal events of a job: `done` or `error`. -/
def isTerminal : Ev → Bool
  | .done _ => true
  | .error _ => true
  | _ => false

/-! ## The worker (`YTDLWorker`) -/

/-- The keys of the dict `d` the provider passes to `_progress_hook` that the hook
reads (src/yt_tab.py 75-80); each may be absent (`None`). -/
structure HookInput where
  status : Option String
  downloaded_bytes : Option ℕ
  total_bytes : Option ℕ
  total_bytes_estimate : Option ℕ
  speed : Option ℕ
  eta : Option ℕ
  deriving Repr, DecidableEq

/-- One invocation of `_progress_hook` during the download: either the body runs
normally on the dict `d`, or the body raises internally with message `e`.  The
hook wraps its whole body in `try/except` and converts an internal failure into
an `("error", "Progress hook error: ...")` message (src/yt_tab.py 92-93). -/
inductive HookCall where
  | call (d : HookInput)
  | fails (e : String)
  deriving Repr, DecidableEq

/-- The messages `_progress_hook` puts on the queue for one invocation
(src/yt_tab.py 73-93): a `progress` message when `d["status"] == "downloading"`,
a `status` message when it is `"finished"`, nothing otherwise; an internal
failure yields the hook's own `error` message. -/
def hookEvents : HookCall → List Ev
  | .fails e => [.error ("Progress hook error: " ++ e)]
  | .call d =>
    match d.status with
    | some "downloading" =>
      let downloaded := pyOrNat d.downloaded_bytes 0
      let total := pyOrNat d.total_bytes (pyOrNat d.total_bytes_estimate 0)
      [.progress ⟨pyPercent downloaded total, downloaded, total, d.speed, d.eta⟩]
    | some "finished" => [.status "Postprocessing..."]
    | _ => []

/-- Outcome of the blocking metadata call `ydl.extract_info(self.url,
download=False)` (src/yt_tab.py 65-66): normal return, abstracted to the title the
worker reads from the info dict (`info.get("title", "video")` can yield the
default), or an exception with message `e` (Python `str(e)`). -/
inductive MetaOutcome where
  | ok (title : String)
  | raises (e : String)
  deriving Repr, DecidableEq

/-- Outcome of the blocking `ydl.download([self.url])` call (src/yt_tab.py 68):
the sequence of progress-hook invocations it performs, followed by normal return
or an exception with message `e`. -/
inductive DownloadOutcome where
  | ok (hooks : List HookCall)
  | raises (hooks : List HookCall) (e : String)
  deriving Repr, DecidableEq

/-- The hook invocations a download outcome performs. -/
def DownloadOutcome.hooks : DownloadOutcome → List HookCall
  | .ok hooks => hooks
  | .raises hooks _ => hooks

/-- The `try:` block of `YTDLWorker.run` (src/yt_tab.py 62-69): the queue messages
put in order, paired with the exception escaping the block, if any.  The worker
puts `("status", "Fetching info...")`, runs the metadata call, puts
`("status", "Downloading: " + title)`, runs the download (whose hooks put their
own messages), and finally puts `("done", "Finished: " + title)`. -/
def tryBody : MetaOutcome → DownloadOutcome → List Ev × Option String
  | .raises e, _ => ([.status "Fetching info..."], some e)
  | .ok title, .ok hooks =>
    ([.status "Fetching info...", .status ("Downloading: " ++ title)]
      ++ hooks.flatMap hookEvents ++ [.done ("Finished: " ++ title)], none)
  | .ok title, .raises hooks e =>
    ([.status "Fetching info...", .status ("Downloading: " ++ title)]
      ++ hooks.flatMap hookEvents, some e)

/-- `YTDLWorker.run` (src/yt_tab.py 44-71): the `try` block, with
`except Exception as e: self.progress_queue.put(("error", str(e)))` appending a
single `error` message whenever an exception escapes the block.  The result is
the full sequence of queue messages the worker thread emits for the job. -/
def runEvents (m : MetaOutcome) (dl : DownloadOutcome) : List Ev :=
  match tryBody m dl with
  | (evs, none) => evs
  | (evs, some e) => evs ++ [.error e]

/-! ## The YouTube tab state and the polling consumer -/

/-- Constructor arguments of `YTDLWorker` as built by `start_download`
(src/yt_tab.py 456-461), without the shared queue. -/
structure WorkerArgs where
  url : String
  format_id : String
  out_template : String
  deriving Repr, DecidableEq

/-- The three per-kind format lists `_on_formats_ready` stores on the instance
(src/yt_tab.py 384-386); they are always assigned together, so a single optional
record models `hasattr(self, "video_formats")`. -/
structure ClassifiedFormats where
  video : List Fmt
  audio : List Fmt
  all : List Fmt
  deriving Repr, DecidableEq

/-- The state of `YouTubeTab` that the modelled methods read or write: the text
inputs, the selected format tab and combo indices, the combo contents, the labels
and progress bar, the two buttons, the stored payload fields, the classified
format lists, plus two histories that record externally visible effects — the
worker threads started (`self.worker = YTDLWorker(...); self.worker.start()`) and
the message boxes shown, as `(caption, text)` pairs in order. -/
structure YTState where
  urlInput : String
  outdirInput : String
  filenameInput : String
  formatTabsIndex : ℕ
  videoComboIndex : ℤ
  audioComboIndex : ℤ
  allComboIndex : ℤ
  videoComboItems : List String
  audioComboItems : List String
  allComboItems : List String
  statusLabel : String
  titleLabel : String
  progressBar : ℤ
  downloadBtnEnabled : Bool
  checkBtnEnabled : Bool
  formats : List Fmt
  info : Option InfoPayload
  thumbnailBytes : Option (List ℕ)
  classified : Option ClassifiedFormats
  spawnedWorkers : List WorkerArgs
  dialogs : List (String × String)
  deriving Repr, DecidableEq

/-- The state after `YouTubeTab.__init__`/`init_ui` (src/yt_tab.py 99-227): empty
inputs except the filename template `"{title}.{ext}"`, status `"Idle"`, progress
`0`, both buttons enabled, no formats, no worker started, no dialog shown. -/
def initState : YTState where
  urlInput := ""
  outdirInput := ""
  filenameInput := "{title}.{ext}"
  formatTabsIndex := 0
  videoComboIndex := -1
  audioComboIndex := -1
  allComboIndex := -1
  videoComboItems := []
  audioComboItems := []
  allComboItems := []
  statusLabel := "Idle"
  titleLabel := "Title: -"
  progressBar := 0
  downloadBtnEnabled := true
  checkBtnEnabled := true
  formats := []
  info := none
  thumbnailBytes := none
  classified := none
  spawnedWorkers := []
  dialogs := []

/-- The classification loop of `_on_formats_ready` (src/yt_tab.py 354-372): skip
entries with empty extension or an extension containing `"mhtml"`; an entry with a
real video codec and no audio codec is video-only, one with a real audio codec and
no video codec is audio-only, everything else lands in the `all` bucket.  Python
string truthiness (`vcodec and vcodec != "none"` and `not acodec or ...`) is the
emptiness test. -/
def classifyFormats (formats : List Fmt) : ClassifiedFormats :=
  formats.foldl (fun acc f =>
    if f.ext = "" || pyInStr "mhtml" (pyLower f.ext) then acc
    else if f.vcodec ≠ "" && f.vcodec ≠ "none" && (f.acodec = "" || f.acodec = "none") then
      { acc with video := acc.video ++ [f] }
    else if f.acodec ≠ "" && f.acodec ≠ "none" && (f.vcodec = "" || f.vcodec = "none") then
      { acc with audio := acc.audio ++ [f] }
    else
      { acc with all := acc.all ++ [f] }) ⟨[], [], []⟩

/-- `YouTubeTab._on_formats_ready` (src/yt_tab.py 344-409): with no formats, show
an information box and change nothing else; otherwise classify the formats,
repopulate the three combo boxes with the labels, store the classified lists, set
the title label to `"<b>{title}</b> — {uploader}"`, re-enable the download button
and update the status line.  Rendering of the thumbnail pixmap is display-only
and not modelled beyond the stored bytes; Qt's automatic selection of the first
added combo item is not modelled (the combo indices are set explicitly in the
concrete states below). -/
def on_formats_ready (s : YTState) : YTState :=
  if s.formats = [] then
    { s with dialogs := s.dialogs ++ [("Info", "No formats found.")] }
  else
    let cls := classifyFormats s.formats
    let title := match s.info with
      | some i => i.title.getD "Unknown"
      | none => "Unknown"
    let uploader := match s.info with
      | some i => i.uploader.getD ""
      | none => ""
    { s with
      videoComboItems := cls.video.map Fmt.label
      audioComboItems := cls.audio.map Fmt.label
      allComboItems := cls.all.map Fmt.label
      classified := some cls
      titleLabel := "<b>" ++ title ++ "</b> — " ++ uploader
      downloadBtnEnabled := true
      statusLabel := "Formats ready. Choose one to download." }

/-- One iteration of the dispatch in `YouTubeTab._process_queue`
(src/yt_tab.py 467-497), applied to the message just dequeued.  `fmt_bytes`
renders a byte count for the progress label; the source's `fmt_bytes`
(src/yt_tab.py 20-31) goes through `math.log`/`round` floating-point calls, so the
renderer is a parameter of the model rather than a reimplementation. -/
def applyEvent (fmt_bytes : ℕ → String) (s : YTState) : Ev → YTState
  | .formatsReady p =>
    on_formats_ready { s with formats := p.formats, info := p.info,
                              thumbnailBytes := p.thumbnail }
  | .checkDone => { s with checkBtnEnabled := true }
  | .progress m =>
    { s with progressBar := m.percent
             statusLabel := "Downloading " ++ toString m.percent ++ "% — "
               ++ fmt_bytes m.downloaded ++ "/" ++ fmt_bytes m.total
               ++ " — ETA: " ++ pyStrOfOptNat m.eta ++ "s" }
  | .status msg => { s with statusLabel := msg }
  | .done msg =>
    { s with statusLabel := msg
             progressBar := 100
             downloadBtnEnabled := true
             checkBtnEnabled := true
             dialogs := s.dialogs ++ [("Done", msg)] }
  | .error msg =>
    { s with statusLabel := "Error"
             downloadBtnEnabled := true
             checkBtnEnabled := true
             dialogs := s.dialogs ++ [("Error", msg)] }

/-- `queue.Queue.put`: append at the back of the FIFO channel. -/
def put (q : List Ev) (e : Ev) : List Ev := q ++ [e]

/-- `queue.Queue.get_nowait`: take the front message; `none` models the
`queue.Empty` exception on an empty channel. -/
def get_nowait : List Ev → Option (Ev × List Ev)
  | [] => none
  | e :: rest => some (e, rest)

/-- `YouTubeTab._process_queue` (src/yt_tab.py 464-499): loop `get_nowait`,
dispatching each dequeued message, until the channel raises `queue.Empty`, which
the surrounding `except queue.Empty: pass` swallows.  The function returns the
updated state and the (always empty) remaining channel; it is total, so the poll
tick never blocks. -/
def process_queue (fmt_bytes : ℕ → String) : YTState → List Ev → YTState × List Ev
  | s, [] => (s, [])
  | s, e :: rest => process_queue fmt_bytes (applyEvent fmt_bytes s e) rest

/-! ## `YouTubeTab.start_download` -/

/-- The format list of the currently selected tab (src/yt_tab.py 424-433). -/
def selectedList (s : YTState) (cls : ClassifiedFormats) : List Fmt :=
  if s.formatTabsIndex = 0 then cls.video
  else if s.formatTabsIndex = 1 then cls.audio
  else cls.all

/-- The current index of the combo box of the selected tab (src/yt_tab.py 424-435). -/
def selectedIndex (s : YTState) : ℤ :=
  if s.formatTabsIndex = 0 then s.videoComboIndex
  else if s.formatTabsIndex = 1 then s.audioComboIndex
  else s.allComboIndex

/-- The selection check of `start_download` (src/yt_tab.py 436): the submission is
rejected when `sel_idx < 0 or sel_idx >= len(formats_list)`. -/
def validSelection (s : YTState) (cls : ClassifiedFormats) : Bool :=
  !(decide (selectedIndex s < 0) || decide ((selectedList s cls).length ≤ selectedIndex s))

/-- The `YTDLWorker` constructor arguments `start_download` builds
(src/yt_tab.py 440-461): the format id with its falsey-default, the filename
template with its falsey-default and `{title}`/`{ext}` substitution, joined under
the output directory (the platform path separator of `Path.__truediv__` is
modelled as `"/"`). -/
def spawnArgs (s : YTState) (cls : ClassifiedFormats) : WorkerArgs :=
  let fmt := (selectedList s cls).getD (selectedIndex s).toNat default
  let fmt_id := pyOrStr fmt.id "bestvideo+bestaudio/best"
  let filename_template := pyOrStr (pyStrip s.filenameInput) "{title}.{ext}"
  let out_template :=
    pyReplace (pyReplace filename_template "{title}" "%(title)s") "{ext}" "%(ext)s"
  { url := pyStrip s.urlInput
    format_id := fmt_id
    out_template := s.outdirInput ++ "/" ++ out_template }

/-- `YouTubeTab.start_download` (src/yt_tab.py 418-462): warn when formats were
never fetched (`hasattr(self, "video_formats")` fails) or when the selected combo
index is out of range; otherwise disable both buttons, reset the progress bar,
set the status line and start a new `YTDLWorker` — with no check whatsoever of
whether a previous job is still running. -/
def start_download (s : YTState) : YTState :=
  match s.classified with
  | none => { s with dialogs := s.dialogs ++ [("Error", "Please check formats first.")] }
  | some cls =>
    if validSelection s cls = false then
      { s with dialogs := s.dialogs ++ [("Error", "Please select a format.")] }
    else
      { s with downloadBtnEnabled := false
               checkBtnEnabled := false
               progressBar := 0
               statusLabel := "Starting download..."
               spawnedWorkers := s.spawnedWorkers ++ [spawnArgs s cls] }

/-! ## The image converter tab (`src/converter_tab.py`) -/

/-- The supported image formats (src/converter_tab.py 10-12). -/
def SUPPORTED_FORMATS : List String :=
  ["PNG", "WEBP", "JPEG", "GIF", "TIFF", "BMP", "PDF"]

/-- `QComboBox.setCurrentText` on a non-editable combo box: the selection changes
only when the text matches one of the items, otherwise it is left unchanged. -/
def setCurrentText (items : List String) (current text : String) : String :=
  if text ∈ items then text else current

/-- The two format selections of `ImageConverterTab` (both combo boxes are
populated with `SUPPORTED_FORMATS`, src/converter_tab.py 45-51). -/
structure ConverterState where
  inputFormat : String
  outputFormat : String
  deriving Repr, DecidableEq

/-- `ImageConverterTab.swap_formats` (src/converter_tab.py 145-149): read both
current selections first, then set each combo box to the other's text. -/
def swap_formats (s : ConverterState) : ConverterState :=
  let input_fmt := s.inputFormat
  let output_fmt := s.outputFormat
  { inputFormat := setCurrentText SUPPORTED_FORMATS s.inputFormat output_fmt
    outputFormat := setCurrentText SUPPORTED_FORMATS s.outputFormat input_fmt }

/-- Decidable equality for provider outcomes (kernel-reducible, so concrete
scenarios evaluate by `decide`). -/
instance : DecidableEq (Except String ℕ) := fun x y =>
  match x, y with
  | .ok a, .ok b =>
    match decEq a b with
    | isTrue h => isTrue (h ▸ rfl)
    | isFalse h => isFalse (fun hc => h (Except.noConfusion hc id))
  | .error a, .error b =>
    match decEq a b with
    | isTrue h => isTrue (h ▸ rfl)
    | isFalse h => isFalse (fun hc => h (Except.noConfusion hc id))
  | .ok _, .error _ => isFalse (fun hc => Except.noConfusion hc)
  | .error _, .ok _ => isFalse (fun hc => Except.noConfusion hc)

/-- One file of the input folder listing, with the provider outcome for it:
`Except.ok n` means the `Image.open`/`convert("RGB")`/`save` block succeeds and
the written output file has `n` bytes (`os.path.getsize`); `Except.error e` means
some step of that block raises with message `e` (Python `str(e)`).  The outcome is
consulted only for files the loop does not skip. -/
structure ConvFile where
  name : String
  outcome : Except String ℕ
  deriving Repr, DecidableEq

/-- Index of the last `'.'` of the character list, if any. -/
def lastDotIdx (cs : List Char) : Option ℕ :=
  ((List.range cs.length).filter (fun i => cs.getD i ' ' = '.')).getLast?

/-- Python `os.path.splitext(p)[0]` for a plain filename (no directory
separators): cut at the last dot, unless every character before that dot is
itself a dot (leading dots never start an extension). -/
def splitextStem (p : String) : String :=
  match lastDotIdx p.data with
  | none => p
  | some i =>
    if (p.data.take i).all (fun c => c = '.') then p else String.mk (p.data.take i)

/-- The filter of the conversion loop (src/converter_tab.py 171-173): `filename`
is processed iff `filename.lower().endswith("." + in_fmt)`, where `in_fmt` is the
already-lowercased selected input format. -/
def matchesInputFormat (in_fmt filename : String) : Bool :=
  pyEndsWith (pyLower filename) ("." ++ in_fmt)

/-- The `save_kwargs` dict built for one file (src/converter_tab.py 182-186):
quality for WEBP/JPEG/JPG outputs, additionally the method level for WEBP. -/
def saveKwargs (out_fmt : String) (quality method : ℕ) : List (String × ℕ) :=
  (if out_fmt ∈ ["webp", "jpeg", "jpg"] then [("quality", quality)] else [])
    ++ (if out_fmt = "webp" then [("method", method)] else [])

/-- One iteration of the conversion loop for one file (src/converter_tab.py
171-195): `none` when the extension filter skips the file (silently — no log
line, no count); otherwise the log line appended to the log box, paired with
whether the iteration incremented the success count.  The output filename in the
`Converted` line is `splitext(filename)[0] + "." + out_fmt` and the reported size
is `getsize(output_path) // 1024` KB. -/
def convertStep (in_fmt out_fmt : String) (f : ConvFile) : Option (String × Bool) :=
  if matchesInputFormat in_fmt f.name = false then none
  else
    match f.outcome with
    | .ok size =>
      some ("Converted: " ++ f.name ++ " → " ++ splitextStem f.name ++ "." ++ out_fmt
        ++ " (" ++ toString (size / 1024) ++ " KB)", true)
    | .error e =>
      some ("Failed: " ++ f.name ++ " (" ++ e ++ ")", false)

/-- The batch part of `ImageConverterTab.convert` after input validation
(src/converter_tab.py 164-200): lowercase both selected formats, run the loop
over the folder listing in order, and return the log-box lines, the success
count, and the final message box (`"No Files"` when the count is zero, the
`"Done"` summary otherwise). -/
def convertRun (files : List ConvFile) (in_sel out_sel : String) :
    List String × ℕ × (String × String) :=
  let in_fmt := pyLower in_sel
  let out_fmt := pyLower out_sel
  let results := files.filterMap (convertStep in_fmt out_fmt)
  let log := results.map Prod.fst
  let count := (results.filter Prod.snd).length
  (log, count,
    if count = 0 then ("No Files", "No files found for conversion.")
    else ("Done", "Converted " ++ toString count ++ " files."))

/-! ## Observations used by the statements -/

/-- A log line recording a successful conversion. -/
def isConvertedLine (l : String) : Bool := pyStartsWith l "Converted:"

/-- A log line recording a per-file failure. -/
def isFailedLine (l : String) : Bool := pyStartsWith l "Failed:"

/-- The `downloaded` counters carried by the `progress` events of a trace, in
emission order. -/
def progressDownloads (tr : List Ev) : List ℕ :=
  tr.filterMap (fun e => match e with
    | .progress m => some m.downloaded
    | _ => none)

/-- The `downloaded_bytes` values (with Python falsey-to-`0` collapse) of the
provider's `"downloading"` hook inputs, in invocation order. -/
def reportedDownloads (hooks : List HookCall) : List ℕ :=
  hooks.filterMap (fun h => match h with
    | .call d => if d.status = some "downloading"
                 then some (pyOrNat d.downloaded_bytes 0) else none
    | .fails _ => none)

/-- A list of counters is monotonically non-decreasing. -/
def nondecreasing : List ℕ → Bool
  | [] => true
  | [_] => true
  | a :: b :: rest => decide (a ≤ b) && nondecreasing (b :: rest)

/-- The hook invocation completed without an internal failure. -/
def hookCallOk : HookCall → Bool
  | .call _ => true
  | .fails _ => false

/-- No progress-hook invocation of the download failed internally. -/
def noHookFailure (dl : DownloadOutcome) : Bool := dl.hooks.all hookCallOk

/-! ## Helper lemmas -/

/-- A successfully completing hook invocation never emits a terminal event. -/
lemma hookEvents_call_not_terminal (d : HookInput) :
    ∀ e ∈ hookEvents (.call d), isTerminal e = false := by
  intro e he
  simp only [hookEvents] at he
  split at he <;> simp_all [isTerminal]

/-- If no hook invocation fails internally, the hook-emitted part of the trace
contains no terminal event. -/
lemma flatMap_hookEvents_not_terminal (hooks : List HookCall)
    (h : hooks.all hookCallOk = true) :
    (hooks.flatMap hookEvents).all (fun e => !isTerminal e) = true := by
  induction hooks with
  | nil => rfl
  | cons hc rest ih =>
    simp only [List.all_cons, Bool.and_eq_true] at h
    cases hc with
    | fails e => simp [hookCallOk] at h
    | call d =>
      rw [List.flatMap_cons, List.all_append]
      refine Bool.and_eq_true_iff.mpr ⟨?_, ih h.2⟩
      rw [List.all_eq_true]
      intro e he
      rw [hookEvents_call_not_terminal d e he]
      rfl

/-- The `downloaded` counters of a concatenated trace. -/
lemma progressDownloads_append (a b : List Ev) :
    progressDownloads (a ++ b) = progressDownloads a ++ progressDownloads b :=
  List.filterMap_append a b _

/-- One hook invocation forwards exactly the provider-reported counter. -/
lemma progressDownloads_hookEvents (hc : HookCall) :
    progressDownloads (hookEvents hc) = reportedDownloads [hc] := by
  cases hc with
  | fails e => rfl
  | call d =>
    simp only [hookEvents, reportedDownloads, List.filterMap, progressDownloads]
    split <;> simp_all

/-- `reportedDownloads` distributes over `cons`. -/
lemma reportedDownloads_cons (hc : HookCall) (rest : List HookCall) :
    reportedDownloads (hc :: rest) = reportedDownloads [hc] ++ reportedDownloads rest := by
  cases hc with
  | fails e => rfl
  | call d =>
    simp only [reportedDownloads, List.filterMap]
    split <;> simp

/-- The whole hook-emitted part of a trace carries exactly the provider-reported
counters, in invocation order. -/
lemma progressDownloads_flatMap (hooks : List HookCall) :
    progressDownloads (hooks.flatMap hookEvents) = reportedDownloads hooks := by
  induction hooks with
  | nil => rfl
  | cons hc rest ih =>
    rw [List.flatMap_cons, progressDownloads_append, progressDownloads_hookEvents, ih,
      ← reportedDownloads_cons]

/-- `put` in emission order builds the channel content in the same order. -/
lemma foldl_put_eq (evs : List Ev) : ∀ q : List Ev, evs.foldl put q = q ++ evs := by
  induction evs with
  | nil => intro q; simp
  | cons e rest ih => intro q; simp [put, ih (q ++ [e])]

/-- The poll tick applies the queued messages left to right and leaves the
channel empty. -/
lemma process_queue_eq_foldl (fmt_bytes : ℕ → String) :
    ∀ (q : List Ev) (s : YTState),
      process_queue fmt_bytes s q = (q.foldl (applyEvent fmt_bytes) s, []) := by
  intro q
  induction q with
  | nil => intro s; rfl
  | cons e rest ih => intro s; simp [process_queue, ih]

/-- A success log line starts with `"Converted:"`. -/
lemma isConvertedLine_converted (s : String) :
    isConvertedLine ("Converted: " ++ s) = true := rfl

/-- A failure log line does not start with `"Converted:"`. -/
lemma isConvertedLine_failed (s : String) :
    isConvertedLine ("Failed: " ++ s) = false := rfl

/-- A failure log line starts with `"Failed:"`. -/
lemma isFailedLine_failed (s : String) :
    isFailedLine ("Failed: " ++ s) = true := rfl

/-- A success log line does not start with `"Failed:"`. -/
lemma isFailedLine_converted (s : String) :
    isFailedLine ("Converted: " ++ s) = false := rfl

/-- The provider call succeeded for this file. -/
def outcomeOk : Except String ℕ → Bool
  | .ok _ => true
  | .error _ => false

/-- The loop processes a file iff the extension filter keeps it. -/
def fileMatches (in_sel : String) (f : ConvFile) : Bool :=
  matchesInputFormat (pyLower in_sel) f.name

/-- Master accounting for the conversion loop: one log line per matching file, the
count and the `Converted` lines match the successes, the `Failed` lines the
failures. -/
lemma convert_accounting (i o : String) (files : List ConvFile) :
    (files.filterMap (convertStep i o)).length
        = (files.filter (fun f => matchesInputFormat i f.name)).length
    ∧ ((files.filterMap (convertStep i o)).filter Prod.snd).length
        = (files.filter (fun f => matchesInputFormat i f.name
            && outcomeOk f.outcome)).length
    ∧ (((files.filterMap (convertStep i o)).map Prod.fst).filter isConvertedLine).length
        = (files.filter (fun f => matchesInputFormat i f.name
            && outcomeOk f.outcome)).length
    ∧ (((files.filterMap (convertStep i o)).map Prod.fst).filter isFailedLine).length
        = (files.filter (fun f => matchesInputFormat i f.name
            && !outcomeOk f.outcome)).length := by
  induction files with
  | nil => exact ⟨rfl, rfl, rfl, rfl⟩
  | cons f rest ih =>
    obtain ⟨ih1, ih2, ih3, ih4⟩ := ih
    rcases hm : matchesInputFormat i f.name with _ | _
    · simp [List.filterMap_cons, List.filter_cons, convertStep, hm, ih1, ih2, ih3, ih4]
    · rcases hout : f.outcome with v | v
      · simp [List.filterMap_cons, List.filter_cons, convertStep, hm, hout, outcomeOk,
          ih1, ih2, ih3, ih4, isConvertedLine_failed, isFailedLine_failed,
          String.append_assoc]
      · simp [List.filterMap_cons, List.filter_cons, convertStep, hm, hout, outcomeOk,
          ih1, ih2, ih3, ih4, isConvertedLine_converted, isFailedLine_converted,
          String.append_assoc]

/-- Files the extension filter skips contribute nothing to the loop results. -/
lemma convert_skips_nonmatching (i o : String) (files : List ConvFile) :
    files.filterMap (convertStep i o)
      = (files.filter (fun f => matchesInputFormat i f.name)).filterMap
          (convertStep i o) := by
  induction files with
  | nil => rfl
  | cons f rest ih =>
    rcases hm : matchesInputFormat i f.name with _ | _
    · simp [List.filterMap_cons, List.filter_cons, convertStep, hm, ih]
    · simp [List.filterMap_cons, List.filter_cons, convertStep, hm, ih]

/-! ## Concrete fixtures -/

/-- A video-only format entry as `check_formats` builds them. -/
def fmt0 : Fmt :=
  ⟨"137", "1080p — mp4 — 10 MB (video only)", "mp4", "avc1", "none", 0, some 1080⟩

/-- The classified lists after fetching formats for a video with one entry. -/
def cls0 : ClassifiedFormats := ⟨[fmt0], [], []⟩

/-- A tab state ready to download: formats fetched and classified, the first
video format selected, URL and output folder filled in. -/
def sReady : YTState :=
  { initState with
      urlInput := "https://example.com/watch?v=abc"
      outdirInput := "/tmp/out"
      classified := some cls0
      videoComboIndex := 0
      videoComboItems := [fmt0.label] }

/-- A provider hook input whose `total_bytes_estimate` underestimates: more bytes
downloaded than the resolved total. -/
def hookOver : HookInput := ⟨some "downloading", some 1500, some 1000, none, none, none⟩

/-- Two provider hook inputs whose downloaded counters decrease (as happens at a
file boundary of a video+audio download, where `downloaded_bytes` restarts). -/
def hooksDecreasing : List HookCall :=
  [.call ⟨some "downloading", some 100, some 1000, none, none, none⟩,
   .call ⟨some "downloading", some 50, some 1000, none, none, none⟩]

/-- Two provider hook inputs with non-decreasing downloaded counters. -/
def hooksIncreasing : List HookCall :=
  [.call ⟨some "downloading", some 100, some 1000, none, none, none⟩,
   .call ⟨some "downloading", some 300, some 1000, none, none, none⟩]

/-- A batch of five matching input files, one of which is corrupt. -/
def batch5 : List ConvFile :=
  [⟨"a.png", .ok 2048⟩, ⟨"b.png", .ok 1024⟩,
   ⟨"c.png", .error "cannot identify image file"⟩,
   ⟨"d.png", .ok 4096⟩, ⟨"e.png", .ok 512⟩]

/-! ## C1 — one terminal event per job -/

/-- C1, counterexample: when a progress-hook invocation fails internally while the
download itself then succeeds, the worker emits an `error` event and afterwards a
`done` event for the same job — two terminal events, with events after the first
terminal one, contradicting the claim that a job emits exactly one terminal event
and nothing after it. -/
theorem hook_failure_emits_error_then_done :
    runEvents (.ok "clip") (.ok [.fails "boom"]) =
      [.status "Fetching info...", .status "Downloading: clip",
       .error "Progress hook error: boom", .done "Finished: clip"]
    ∧ ((runEvents (.ok "clip") (.ok [.fails "boom"])).filter isTerminal).length = 2 := by
  decide

/-- C1, amended: provided no progress-hook invocation raises internally, the
worker emits exactly one terminal event (`done` on success, `error` on failure of
a blocking call), it is the last event of the job, and every earlier event is
non-terminal.  (A hook-internal failure additionally injects an `error` event
mid-stream without stopping the job, which is what the counterexample exhibits.) -/
theorem worker_single_terminal_event (m : MetaOutcome) (dl : DownloadOutcome)
    (h : noHookFailure dl = true) :
    ∃ pre t, runEvents m dl = pre ++ [t] ∧ isTerminal t = true
      ∧ pre.all (fun e => !isTerminal e) = true := by
  cases m with
  | raises e =>
    exact ⟨[.status "Fetching info..."], .error e, rfl, rfl, rfl⟩
  | ok title =>
    cases dl with
    | ok hooks =>
      refine ⟨[.status "Fetching info...", .status ("Downloading: " ++ title)]
        ++ hooks.flatMap hookEvents, .done ("Finished: " ++ title), ?_, rfl, ?_⟩
      · simp [runEvents, tryBody, List.append_assoc]
      · rw [List.all_append]
        unfold noHookFailure DownloadOutcome.hooks at h
        rw [flatMap_hookEvents_not_terminal hooks h]
        rfl
    | raises hooks e =>
      refine ⟨[.status "Fetching info...", .status ("Downloading: " ++ title)]
        ++ hooks.flatMap hookEvents, .error e, ?_, rfl, ?_⟩
      · simp [runEvents, tryBody, List.append_assoc]
      · rw [List.all_append]
        unfold noHookFailure DownloadOutcome.hooks at h
        rw [flatMap_hookEvents_not_terminal hooks h]
        rfl

/-- C1, witness: a run whose single hook invocation succeeds has exactly one
terminal event, in last position. -/
theorem worker_single_terminal_event_witness :
    ∃ pre t, runEvents (.ok "v") (.ok hooksIncreasing) = pre ++ [t]
      ∧ isTerminal t = true ∧ pre.all (fun e => !isTerminal e) = true :=
  worker_single_terminal_event (.ok "v") (.ok hooksIncreasing) (by decide)

/-! ## C3 — exceptions are converted at the worker boundary -/

/-- C3: the worker's `run` is a total function into event traces (no exception
escapes it in the model), and whenever an exception escapes the `try` block of
the blocking calls, `run` appends exactly one `error` event carrying its
description, as the final event of the job — the consumer only ever observes
typed events. -/
theorem worker_converts_exceptions_to_error_events (m : MetaOutcome)
    (dl : DownloadOutcome) (e : String) (h : (tryBody m dl).2 = some e) :
    runEvents m dl = (tryBody m dl).1 ++ [.error e]
    ∧ (runEvents m dl).getLast? = some (.error e) := by
  have h1 : runEvents m dl = (tryBody m dl).1 ++ [.error e] := by
    unfold runEvents
    rcases htb : tryBody m dl with ⟨evs, exc⟩
    rw [htb] at h
    simp only at h
    subst h
    rfl
  refine ⟨h1, ?_⟩
  rw [h1]
  exact List.getLast?_concat _

/-- C3, witness: a failing metadata call ends the trace with its error event. -/
theorem worker_converts_exceptions_to_error_events_witness :
    runEvents (.raises "HTTP Error 404") (.ok [])
      = (tryBody (.raises "HTTP Error 404") (.ok [])).1 ++ [.error "HTTP Error 404"]
    ∧ (runEvents (.raises "HTTP Error 404") (.ok [])).getLast?
      = some (.error "HTTP Error 404") :=
  worker_converts_exceptions_to_error_events (.raises "HTTP Error 404") (.ok [])
    "HTTP Error 404" rfl

/-! ## C2 — submission while a job is active -/

/-- C2, counterexample: starting from a ready state, calling `start_download`
spawns a worker and disables the trigger; calling `start_download` again while
that job is still active (no terminal event has been processed in between)
spawns a second worker and shows no validation dialog at all — the submission is
not rejected. -/
theorem second_submit_spawns_second_worker :
    (start_download sReady).downloadBtnEnabled = false
    ∧ (start_download sReady).spawnedWorkers.length = 1
    ∧ (start_download (start_download sReady)).spawnedWorkers.length = 2
    ∧ (start_download (start_download sReady)).dialogs = [] := by
  decide

/-- C2, amended: `start_download` performs no active-job check — whenever the
format metadata is present and the selection is valid it starts a new worker,
whatever jobs are already running, and reports no validation error for the
active job.  Double submission is instead prevented at the trigger-control
level: every spawn disables the download button (and the check button), and a
terminal `done`/`error` event processed by the poller re-enables it. -/
theorem start_download_no_active_job_check (s : YTState) (cls : ClassifiedFormats)
    (h1 : s.classified = some cls) (h2 : validSelection s cls = true) :
    (start_download s).spawnedWorkers = s.spawnedWorkers ++ [spawnArgs s cls]
    ∧ (start_download s).dialogs = s.dialogs
    ∧ (start_download s).downloadBtnEnabled = false
    ∧ (start_download s).checkBtnEnabled = false
    ∧ (∀ fb msg, (applyEvent fb (start_download s) (Ev.done msg)).downloadBtnEnabled = true)
    ∧ (∀ fb msg, (applyEvent fb (start_download s) (Ev.error msg)).downloadBtnEnabled = true) := by
  have hsd : start_download s =
      { s with downloadBtnEnabled := false
               checkBtnEnabled := false
               progressBar := 0
               statusLabel := "Starting download..."
               spawnedWorkers := s.spawnedWorkers ++ [spawnArgs s cls] } := by
    unfold start_download
    rw [h1]
    simp [h2]
  rw [hsd]
  exact ⟨rfl, rfl, rfl, rfl, fun fb msg => rfl, fun fb msg => rfl⟩

/-- C2, witness: the ready state has a valid selection, and submitting spawns
with the trigger disabled and no new dialog. -/
theorem start_download_no_active_job_check_witness :
    (start_download sReady).spawnedWorkers = sReady.spawnedWorkers ++ [spawnArgs sReady cls0]
    ∧ (start_download sReady).downloadBtnEnabled = false :=
  ⟨(start_download_no_active_job_check sReady cls0 rfl (by decide)).1,
   (start_download_no_active_job_check sReady cls0 rfl (by decide)).2.2.1⟩

/-! ## C4 — percent range -/

/-- Membership characterisation: a `progress` event produced by a hook invocation
carries the hook's percent of its own payload counters. -/
lemma hook_progress_percent (d : HookInput) (m : ProgressMsg)
    (hm : Ev.progress m ∈ hookEvents (.call d)) :
    m.percent = pyPercent m.downloaded m.total := by
  simp only [hookEvents] at hm
  split at hm <;> simp_all

/-- C4, counterexample: with `total_bytes_estimate` below the real size
(`downloaded = 1500`, resolved `total = 1000 > 0`) the hook emits a `progress`
event whose percent is `150`, outside `[0, 100]` — the hook does not clamp. -/
theorem percent_exceeds_100_when_downloaded_exceeds_total :
    hookEvents (.call hookOver) = [Ev.progress ⟨150, 1500, 1000, none, none⟩]
    ∧ (0 : ℕ) < 1000 ∧ ¬((150 : ℤ) ≤ 100) := by
  refine ⟨?_, by decide, by decide⟩
  simp only [hookOver, hookEvents, pyPercent_eq_div]
  decide

/-- C4, amended: for every `progress` event the hook emits, the percent lies in
`[0, 100]` provided the reported `downloaded` does not exceed the resolved
`total`; when the resolved total is zero/unknown the percent is `0`; and the
spec's two scenarios hold (`250/1000 → 25`, `500/0 → 0`). -/
theorem percent_in_range_amended (d : HookInput) (m : ProgressMsg)
    (hm : Ev.progress m ∈ hookEvents (.call d)) (hle : m.downloaded ≤ m.total) :
    (0 ≤ m.percent ∧ m.percent ≤ 100)
    ∧ (m.total = 0 → m.percent = 0)
    ∧ pyPercent 250 1000 = 25 ∧ pyPercent 500 0 = 0 := by
  have hp := hook_progress_percent d m hm
  refine ⟨?_, ?_, by rw [pyPercent_eq_div]; decide, by rw [pyPercent_eq_div]; decide⟩
  · rw [hp, pyPercent_eq_div]
    constructor
    · exact Int.ofNat_nonneg _
    · have hb : m.downloaded * 100 / m.total ≤ 100 := by
        rcases Nat.eq_zero_or_pos m.total with h0 | h0
        · rw [h0] at hle
          rw [Nat.le_zero.mp hle, h0]
          decide
        · calc m.downloaded * 100 / m.total
              ≤ m.total * 100 / m.total :=
                Nat.div_le_div_right (Nat.mul_le_mul_right 100 hle)
            _ = 100 := Nat.mul_div_cancel_left 100 h0
      exact_mod_cast hb
  · intro h0
    rw [hp, h0]
    simp [pyPercent]

/-- C4, witness: the scenario input `downloaded = 250`, `total = 1000` produces
percent `25`, inside the range. -/
theorem percent_in_range_amended_witness :
    (0 ≤ (25 : ℤ) ∧ (25 : ℤ) ≤ 100) ∧ pyPercent 250 1000 = 25 := by
  have h := percent_in_range_amended ⟨some "downloading", some 250, some 1000, none, none, none⟩
    ⟨25, 250, 1000, none, none⟩
    (by simp only [hookEvents, pyPercent_eq_div]; decide) (by decide)
  exact ⟨h.1, h.2.2.1⟩

/-! ## C5 — FIFO drain by the poller -/

/-- C5: for any sequence of events the worker puts on the channel in order, a
poll tick dequeues and applies them in exactly that order (the drained state is
the left fold of the dispatch over the emission sequence), leaves the channel
empty, and on an empty channel returns immediately with the state unchanged
(the model of `get_nowait` plus `except queue.Empty: pass` is total, so the
tick never blocks). -/
theorem consumer_drains_fifo_in_order (fmt_bytes : ℕ → String) (s : YTState)
    (evs : List Ev) :
    process_queue fmt_bytes s (evs.foldl put [])
      = (evs.foldl (applyEvent fmt_bytes) s, [])
    ∧ process_queue fmt_bytes s [] = (s, []) := by
  constructor
  · rw [foldl_put_eq evs [], List.nil_append, process_queue_eq_foldl]
  · rfl

/-! ## C6 — monotonicity of downloaded counters -/

/-- C6, counterexample: the hook forwards whatever `downloaded_bytes` the
provider reports, so when the provider's counters decrease (e.g. at the file
boundary of a video+audio job, where the counter restarts) the `progress`
events of the single job carry a decreasing sequence — the emitted counters are
not monotonically non-decreasing. -/
theorem progress_counters_not_monotone :
    progressDownloads (runEvents (.ok "v") (.ok hooksDecreasing)) = [100, 50]
    ∧ nondecreasing (progressDownloads (runEvents (.ok "v") (.ok hooksDecreasing)))
      = false := by
  decide

/-- C6, amended: the hook adds no monotonicity of its own — the `downloaded`
counters of the `progress` events equal, in order, exactly the provider-reported
`downloaded_bytes` values (with falsey collapse to `0`); consequently the
emitted counters are non-decreasing whenever the provider's reported values
are. -/
theorem progress_counters_follow_provider (title : String) (dl : DownloadOutcome) :
    progressDownloads (runEvents (.ok title) dl) = reportedDownloads dl.hooks
    ∧ (nondecreasing (reportedDownloads dl.hooks) = true →
        nondecreasing (progressDownloads (runEvents (.ok title) dl)) = true) := by
  have h1 : progressDownloads (runEvents (.ok title) dl) = reportedDownloads dl.hooks := by
    cases dl with
    | ok hooks =>
      show progressDownloads ([.status "Fetching info...",
        .status ("Downloading: " ++ title)] ++ hooks.flatMap hookEvents
          ++ [.done ("Finished: " ++ title)]) = reportedDownloads hooks
      rw [progressDownloads_append, progressDownloads_append,
        progressDownloads_flatMap]
      simp [progressDownloads]
    | raises hooks e =>
      show progressDownloads (([.status "Fetching info...",
        .status ("Downloading: " ++ title)] ++ hooks.flatMap hookEvents)
          ++ [.error e]) = reportedDownloads hooks
      rw [progressDownloads_append, progressDownloads_append,
        progressDownloads_flatMap]
      simp [progressDownloads]
  exact ⟨h1, fun h => h1 ▸ h⟩

/-- C6, witness: with non-decreasing provider counters the emitted counters are
non-decreasing. -/
theorem progress_counters_follow_provider_witness :
    nondecreasing (progressDownloads (runEvents (.ok "v") (.ok hooksIncreasing)))
      = true :=
  (progress_counters_follow_provider "v" (.ok hooksIncreasing)).2 (by decide)

/-! ## C7 — per-item failure isolation in the batch conversion -/

/-- C7: the conversion loop catches the provider failure of each file in
isolation — every matching file contributes exactly one log line, so a failure
never aborts the rest of the batch; the final count (and the `Converted` lines)
tally exactly the successes and the `Failed` lines exactly the failures; and in
the spec's scenario of five matching files with one corrupt payload the log has
four `Converted` lines and one `Failed` line, with final count `4` and the
summary box `Converted 4 files.`. -/
theorem batch_conversion_isolates_failures (files : List ConvFile)
    (in_sel out_sel : String) :
    ((convertRun files in_sel out_sel).1.length
        = (files.filter (fileMatches in_sel)).length)
    ∧ ((convertRun files in_sel out_sel).2.1
        = (files.filter (fun f => fileMatches in_sel f && outcomeOk f.outcome)).length)
    ∧ (((convertRun files in_sel out_sel).1.filter isConvertedLine).length
        = (files.filter (fun f => fileMatches in_sel f && outcomeOk f.outcome)).length)
    ∧ (((convertRun files in_sel out_sel).1.filter isFailedLine).length
        = (files.filter (fun f => fileMatches in_sel f && !outcomeOk f.outcome)).length)
    ∧ ((convertRun batch5 "PNG" "WEBP").1.filter isConvertedLine).length = 4
    ∧ ((convertRun batch5 "PNG" "WEBP").1.filter isFailedLine).length = 1
    ∧ (convertRun batch5 "PNG" "WEBP").2.1 = 4
    ∧ (convertRun batch5 "PNG" "WEBP").2.2 = ("Done", "Converted 4 files.") := by
  obtain ⟨h1, h2, h3, h4⟩ :=
    convert_accounting (pyLower in_sel) (pyLower out_sel) files
  refine ⟨?_, ?_, ?_, ?_, by decide, by decide, by decide, by decide⟩
  · simpa [convertRun, fileMatches] using h1
  · simpa [convertRun, fileMatches] using h2
  · simpa [convertRun, fileMatches] using h3
  · simpa [convertRun, fileMatches] using h4

/-! ## C8 — percent is truncating integer division -/

/-- C8: for every `downloaded` and every `total > 0`, the percent the hook
computes via Python's `int(downloaded * 100 / total)` equals the truncating
integer division `downloaded * 100 // total` (exact rational semantics of the
division; truncation, not rounding). -/
theorem percent_is_truncating_division (d t : ℕ) (_ht : 0 < t) :
    pyPercent d t = ((d * 100 / t : ℕ) : ℤ) :=
  pyPercent_eq_div d t

/-- C8, witness: `250 * 100 // 1000 = 25` and the hook computes exactly that. -/
theorem percent_is_truncating_division_witness :
    (0 : ℕ) < 1000 ∧ pyPercent 250 1000 = ((250 * 100 / 1000 : ℕ) : ℤ) :=
  ⟨by decide, percent_is_truncating_division 250 1000 (by decide)⟩

/-! ## C9 — swap_formats is an involution -/

/-- C9: for any pair of selections drawn from the supported-formats list,
`swap_formats` exchanges the two selections (each `setCurrentText` fires because
the other's text is a real item), and applying it twice restores the original
state. -/
theorem swap_formats_involution (s : ConverterState)
    (h1 : s.inputFormat ∈ SUPPORTED_FORMATS)
    (h2 : s.outputFormat ∈ SUPPORTED_FORMATS) :
    swap_formats s = ⟨s.outputFormat, s.inputFormat⟩
    ∧ swap_formats (swap_formats s) = s := by
  have e1 : swap_formats s = ⟨s.outputFormat, s.inputFormat⟩ := by
    simp [swap_formats, setCurrentText, h1, h2]
  refine ⟨e1, ?_⟩
  rw [e1]
  simp [swap_formats, setCurrentText, h1, h2]

/-- C9, witness: swapping `PNG`/`WEBP` exchanges them and double-swap restores
them. -/
theorem swap_formats_involution_witness :
    swap_formats ⟨"PNG", "WEBP"⟩ = ⟨"WEBP", "PNG"⟩
    ∧ swap_formats (swap_formats ⟨"PNG", "WEBP"⟩) = ⟨"PNG", "WEBP"⟩ :=
  swap_formats_involution ⟨"PNG", "WEBP"⟩ (by decide) (by decide)

/-! ## C10 — the extension filter decides what is processed -/

/-- C10: the batch processes exactly the files whose lowercased name ends with a
dot followed by the lowercased selected input format — removing the
non-matching files from the listing changes nothing about the log, the count or
the final dialog; and concretely a `.jpg` file is skipped silently when `JPEG`
is the selected input format (no log line, count stays zero). -/
theorem convert_filters_by_extension (files : List ConvFile)
    (in_sel out_sel : String) :
    convertRun files in_sel out_sel
      = convertRun (files.filter (fileMatches in_sel)) in_sel out_sel
    ∧ matchesInputFormat "jpeg" "photo.jpg" = false
    ∧ convertRun [⟨"photo.jpg", Except.ok 999⟩] "JPEG" "PNG"
      = ([], 0, ("No Files", "No files found for conversion.")) := by
  refine ⟨?_, by decide, by decide⟩
  have h := convert_skips_nonmatching (pyLower in_sel) (pyLower out_sel) files
  rw [show (fun f => matchesInputFormat (pyLower in_sel) f.name) = fileMatches in_sel
    from rfl] at h
  simp only [convertRun]
  rw [← h]
